import Mathlib

/-!
Shallow embedding of `pandasai/helpers/output_types/_output_types.py`:
the output-type validators (`BaseOutputType` and its concrete variants)
of the pandas-ai repository.

Python values that can appear in a result record are embedded as the
inductive type `PyVal`.  A result record (a Python `dict` with the keys
`"type"` and `"value"`) is embedded as an association list of string
keys.  Machine-level details that none of the validators inspect
(floating-point bit patterns, `Decimal` contexts) are carried as their
literal source text.
-/

/-- Embedding of the Python values relevant to the validators.
`float` and `decimal` carry the literal text of the number (no validator
performs arithmetic on them, only `isinstance` checks); `obj` stands for
any other Python object, identified by a tag. -/
inductive PyVal where
  | none
  | bool (b : Bool)
  | int (n : Int)
  | float (lit : String)
  | decimal (lit : String)
  | str (s : String)
  | list (xs : List PyVal)
  | dict (entries : List (String × PyVal))
  | dataframe (tag : String)
  | series (tag : String)
  | obj (tag : String)

/-- Python `==` between an arbitrary value and a `str` literal: only a
`str` with the same characters compares equal (for every other builtin
kind `str.__eq__` returns `NotImplemented` and the comparison is
`False`). -/
def pyEqStr (v : PyVal) (s : String) : Bool :=
  match v with
  | .str t => t == s
  | _ => false

/-- A Python `dict` playing the role of a result record: an association
list from string keys to values (Python dict keys are unique; lookup
takes the first binding). -/
structure ResultDict where
  entries : List (String × PyVal)

/-- Lookup of a key, distinguishing absence (`none`). -/
def ResultDict.find (r : ResultDict) (k : String) : Option PyVal :=
  match r.entries.find? (fun p => p.1 == k) with
  | some p => some p.2
  | Option.none => Option.none

/-- Python `result.get(k)`: a missing key yields `None`. -/
def ResultDict.get (r : ResultDict) (k : String) : PyVal :=
  match r.find k with
  | some v => v
  | Option.none => PyVal.none

theorem pyEqStr_iff (v : PyVal) (s : String) :
    pyEqStr v s = true ↔ v = PyVal.str s := by
  cases v <;> simp [pyEqStr]

/-- Python single quotes used by `repr` around strings. -/
def squote (s : String) : String := "'" ++ s ++ "'"

mutual

/-- Python `repr` of an embedded value (as used in the value-mismatch
message).  Container reprs recurse into their elements; values carried
as literal text (`float`, `decimal`) or as a tag (`dataframe`, `series`,
`obj`) render from that payload. -/
def pyRepr : PyVal → String
  | .none => "None"
  | .bool true => "True"
  | .bool false => "False"
  | .int n => toString n
  | .float lit => lit
  | .decimal lit => "Decimal(" ++ squote lit ++ ")"
  | .str s => squote s
  | .list xs => "[" ++ String.intercalate ", " (pyReprList xs) ++ "]"
  | .dict es => "\x7b" ++ String.intercalate ", " (pyReprEntries es) ++ "\x7d"
  | .dataframe tag => tag
  | .series tag => tag
  | .obj tag => tag

def pyReprList : List PyVal → List String
  | [] => []
  | v :: vs => pyRepr v :: pyReprList vs

def pyReprEntries : List (String × PyVal) → List String
  | [] => []
  | (k, v) :: es => (squote k ++ ": " ++ pyRepr v) :: pyReprEntries es

end

/-- Python `str` of an embedded value (as used by the f-string in the
type-mismatch message): differs from `repr` on `str` (no quotes) and
`Decimal` (no constructor wrapper); containers and the rest fall back to
`repr`. -/
def pyStr : PyVal → String
  | .str s => s
  | .decimal lit => lit
  | v => pyRepr v

/-! ## The plot-path regular expression

`PlotOutputType._validate_value` runs
`re.match(r"^(\/[\w.-]+)+(/[\w.-]+)*$|^[^\s/]+(/[\w.-]+)*$", value)`.
The matcher below decides exactly that call, by exhaustive backtracking:
each piece of the pattern maps to a function returning every remainder
of the input reachable after matching that piece (starting at position
0, which also discharges the explicit `^` anchors).  `$` matches at the
end of the string or just before a single trailing newline; `re.match`
(in contrast to `re.fullmatch`) does not require the characters at and
after the `$` position to be consumed. -/

/-- The class `\w` (word character; modelled over ASCII). -/
def isWordChar (c : Char) : Bool := c.isAlphanum || c == '_'

/-- The class `[\w.-]`. -/
def isWordDotDash (c : Char) : Bool := isWordChar c || c == '.' || c == '-'

/-- The class `[^\s/]` (neither whitespace nor a slash). -/
def isNonSpaceSlash (c : Char) : Bool := !c.isWhitespace && c != '/'

/-- `p+` on a character class: every remainder after consuming a
nonempty prefix of characters satisfying `p`. -/
def classPlus (p : Char → Bool) : List Char → List (List Char)
  | [] => []
  | c :: rest => if p c then rest :: classPlus p rest else []

/-- One path segment `/[\w.-]+`: every remainder after it. -/
def slashSeg : List Char → List (List Char)
  | [] => []
  | c :: rest => if c == '/' then classPlus isWordDotDash rest else []

theorem classPlus_length {p : Char → Bool} :
    ∀ {s r : List Char}, r ∈ classPlus p s → r.length < s.length := by
  intro s
  induction s with
  | nil => intro r h; simp [classPlus] at h
  | cons c rest ih =>
      intro r h
      by_cases hc : p c
      · simp only [classPlus, if_pos hc, List.mem_cons] at h
        rcases h with rfl | h
        · simp
        · exact Nat.lt_trans (ih h) (by simp)
      · simp [classPlus, hc] at h

theorem slashSeg_length {s r : List Char} (h : r ∈ slashSeg s) :
    r.length < s.length := by
  cases s with
  | nil => simp [slashSeg] at h
  | cons c rest =>
      by_cases hc : c == '/'
      · simp only [slashSeg, if_pos hc] at h
        exact Nat.lt_trans (classPlus_length h) (by simp)
      · simp [slashSeg, hc] at h

/-- `(/[\w.-]+)*` with an explicit iteration budget: every remainder
after at most `fuel` further segments.  Recursion on `fuel` keeps the
definition kernel-computable. -/
def segsStarF : Nat → List Char → List (List Char)
  | 0, s => [s]
  | fuel + 1, s => s :: (slashSeg s).flatMap (segsStarF fuel)

/-- `(/[\w.-]+)*`: every remainder after zero or more segments.  The
budget `s.length` is exhaustive: every segment consumes at least one
character (`slashSeg_length`), so no chain of segments is longer than
the input (`segsStarF_fuel_ge` below). -/
def segsStar (s : List Char) : List (List Char) :=
  segsStarF s.length s

/-- `(\/[\w.-]+)+`: one segment, then zero or more. -/
def segsPlus (s : List Char) : List (List Char) :=
  (slashSeg s).flatMap segsStar

/-- The budget in `segsStarF` is irrelevant beyond `s.length`: every
segment strictly shortens the input, so `segsStar` computes the full
closure of `(/[\w.-]+)*`. -/
theorem segsStarF_fuel_ge :
    ∀ (fuel₁ fuel₂ : Nat) (s : List Char), s.length ≤ fuel₁ → s.length ≤ fuel₂ →
      segsStarF fuel₁ s = segsStarF fuel₂ s := by
  intro fuel₁
  induction fuel₁ with
  | zero =>
      intro fuel₂ s h₁ _
      have hs : s = [] := List.length_eq_zero.mp (Nat.le_zero.mp h₁)
      subst hs
      cases fuel₂ with
      | zero => rfl
      | succ f => simp [segsStarF, slashSeg]
  | succ f₁ ih =>
      intro fuel₂ s h₁ h₂
      cases fuel₂ with
      | zero =>
          have hs : s = [] := List.length_eq_zero.mp (Nat.le_zero.mp h₂)
          subst hs
          simp [segsStarF, slashSeg]
      | succ f₂ =>
          simp only [segsStarF, List.cons.injEq, true_and]
          apply List.flatMap_congr
          intro r hr
          have hlt := slashSeg_length hr
          exact ih f₂ r (by omega) (by omega)

/-- `$`: holds at the end of the string or just before a single trailing
newline. -/
def dollarHolds (r : List Char) : Bool := r.isEmpty || r == ['\n']

/-- `re.match` of the plot-path pattern: some backtracking path through
one of the two alternatives reaches its `$`.  Anchored at the start
only; whatever sits at the `$` position stays unconsumed. -/
def plotReMatch (s : String) : Bool :=
  (((segsPlus s.data).flatMap segsStar).any dollarHolds)
  || (((classPlus isNonSpaceSlash s.data).flatMap segsStar).any dollarHolds)

/-- `re.fullmatch` of the same pattern, for comparison with the `re.match`
the code performs: the whole string must additionally be consumed. -/
def plotReFullmatch (s : String) : Bool :=
  (((segsPlus s.data).flatMap segsStar).any (fun r => dollarHolds r && r.isEmpty))
  || (((classPlus isNonSpaceSlash s.data).flatMap segsStar).any
        (fun r => dollarHolds r && r.isEmpty))

/-! ## The output-type variants -/

/-- An output-type variant as the capability set used by validation:
`name` plus the two overridable checks `_validate_type` and
`_validate_value` (leading underscores dropped for Lean).
`template_hint` is a documentation string never consulted by
validation and is not embedded. -/
structure OutputType where
  name : String
  validate_type : PyVal → Bool
  validate_value : PyVal → Bool

/-- `BaseOutputType._validate_type`: `actual_type == self.name` (exact,
case-sensitive string comparison). -/
def baseValidateType (name : String) (actual_type : PyVal) : Bool :=
  pyEqStr actual_type name

/-- The type-mismatch message appended by `BaseOutputType.validate`
(the f-string renders `actual_type` with `str`). -/
def typeMismatchMsg (name : String) (actual_type : PyVal) : String :=
  "The result dict contains inappropriate 'type'. Expected '" ++ name
    ++ "', actual '" ++ pyStr actual_type ++ "'."

/-- The value-mismatch message appended by `BaseOutputType.validate`
(the f-string renders `actual_value` with `repr`). -/
def valueMismatchMsg (name : String) (actual_value : PyVal) : String :=
  "Actual value " ++ pyRepr actual_value
    ++ " seems to be inappropriate for the type '" ++ name ++ "'."

/-- `BaseOutputType.validate`: reads `type` and `value` with defaulted
lookup, runs both checks, appends one message per failed check (type
message first), and returns `(all((type_ok, value_ok)), validation_logs)`. -/
def BaseOutputType.validate (t : OutputType) (result : ResultDict) :
    Bool × List String :=
  let actual_type := result.get "type"
  let actual_value := result.get "value"
  let type_ok := t.validate_type actual_type
  let logsT : List String :=
    if type_ok then [] else [typeMismatchMsg t.name actual_type]
  let value_ok := t.validate_value actual_value
  let logsV : List String :=
    if value_ok then [] else [valueMismatchMsg t.name actual_value]
  (type_ok && value_ok, logsT ++ logsV)

/-- `NumberOutputType`: `_validate_value` is
`isinstance(actual_value, (int, float, Decimal))`; Python `bool` is a
subclass of `int`, so booleans pass the `int` arm. -/
def NumberOutputType : OutputType where
  name := "number"
  validate_type := baseValidateType "number"
  validate_value := fun v =>
    match v with
    | .int _ => true
    | .bool _ => true
    | .float _ => true
    | .decimal _ => true
    | _ => false

/-- Python truthiness of the classifier result, `bool(df_type(v))`:
`None` is falsy, a string is truthy iff nonempty. -/
def pyTruthyStrOpt : Option String → Bool
  | Option.none => false
  | some s => !(s == "")

/-- `DataFrameOutputType`, parametric in the external classifier
`df_type` (imported from `pandasai.helpers.df_info`, outside this core):
`_validate_value` is `bool(df_type(actual_value))`. -/
def DataFrameOutputType (df_type : PyVal → Option String) : OutputType where
  name := "dataframe"
  validate_type := baseValidateType "dataframe"
  validate_value := fun v => pyTruthyStrOpt (df_type v)

/-- Modelled from the spec: the external tabular-type classifier
`df_type` (defined in `pandasai/helpers/df_info.py`, which is not part
of this core) returns a truthy identifier exactly when the value is a
recognized tabular structure (a dataframe or a series) and a falsy
result otherwise. -/
def dfTypeSpec : PyVal → Option String
  | .dataframe _ => some "dataframe"
  | .series _ => some "series"
  | _ => Option.none

/-- `PlotOutputType`: `_validate_value` requires a `str` and then
`bool(re.match(path_to_plot_pattern, actual_value))`. -/
def PlotOutputType : OutputType where
  name := "plot"
  validate_type := baseValidateType "plot"
  validate_value := fun v =>
    match v with
    | .str s => plotReMatch s
    | _ => false

/-- `StringOutputType`: `_validate_value` is
`isinstance(actual_value, str)`. -/
def StringOutputType : OutputType where
  name := "string"
  validate_type := baseValidateType "string"
  validate_value := fun v =>
    match v with
    | .str _ => true
    | _ => false

/-- `HighChartOutputType`: `_validate_value` is
`isinstance(actual_value, dict)`. -/
def HighChartOutputType : OutputType where
  name := "highchart"
  validate_type := baseValidateType "highchart"
  validate_value := fun v =>
    match v with
    | .dict _ => true
    | _ => false

namespace DefaultOutputType

/-- `DefaultOutputType.default_types`. -/
def default_types : List String := ["string", "number", "dataframe", "plot"]

/-- `DefaultOutputType._validate_type`: always `True`. -/
def validate_type (_ : PyVal) : Bool := true

/-- `DefaultOutputType._validate_value`: always `True`. -/
def validate_value (_ : PyVal) : Bool := true

/-- `DefaultOutputType.validate` overrides the base algorithm entirely:
`return result["type"] in self.default_types, ()`.  The subscript
lookup raises `KeyError` when `type` is absent (modelled as `.error`);
membership compares the looked-up value with each whitelisted string by
Python `==`; the message collection is always empty. -/
def validate (result : ResultDict) : Except String (Bool × List String) :=
  match result.find "type" with
  | some t => Except.ok (default_types.any (fun s => pyEqStr t s), [])
  | Option.none => Except.error "KeyError: type"

end DefaultOutputType

/-- `MKVDefaultOutputType` subclasses `DefaultOutputType` overriding only
`template_hint` (a longer documentation string that also shows
`"highchart"` examples); `validate` is inherited unchanged. -/
def MKVDefaultOutputType.validate : ResultDict → Except String (Bool × List String) :=
  DefaultOutputType.validate

/-- The five strict variants (the subclasses of `BaseOutputType` that
keep its `validate`), used to quantify over them. -/
inductive StrictVariant where
  | number
  | string
  | dataframe
  | plot
  | highchart

/-- The `OutputType` of each strict variant (`df_type` feeds the
dataframe variant's external classifier). -/
def StrictVariant.outputType (df_type : PyVal → Option String) :
    StrictVariant → OutputType
  | .number => NumberOutputType
  | .string => StringOutputType
  | .dataframe => DataFrameOutputType df_type
  | .plot => PlotOutputType
  | .highchart => HighChartOutputType

/-! ## Concrete records used in witnesses -/

/-- A two-key result record `{"type": t, "value": v}`. -/
def recOf (t v : PyVal) : ResultDict := ⟨[("type", t), ("value", v)]⟩

/-- The empty result record `{}`. -/
def emptyRec : ResultDict := ⟨[]⟩

/-! ## Claims -/

/-- C1: for every variant and result record, the boolean component of
`validate` is true iff the claimed type matches (strict variants: the
`type` entry equals the variant name by exact string comparison; default
variant: the `type` entry is one of `"string"`, `"number"`,
`"dataframe"`, `"plot"`) and the variant's value predicate holds of the
`value` entry. -/
theorem C1_validate_boolean_component :
    (∀ (df_type : PyVal → Option String) (sv : StrictVariant) (r : ResultDict),
      (BaseOutputType.validate (StrictVariant.outputType df_type sv) r).1 = true ↔
        (r.get "type" = PyVal.str (StrictVariant.outputType df_type sv).name ∧
         (StrictVariant.outputType df_type sv).validate_value (r.get "value") = true))
    ∧ (∀ (r : ResultDict) (b : Bool) (msgs : List String),
      DefaultOutputType.validate r = Except.ok (b, msgs) →
        (b = true ↔
          (∃ t, r.find "type" = some t ∧
            (t = PyVal.str "string" ∨ t = PyVal.str "number" ∨
             t = PyVal.str "dataframe" ∨ t = PyVal.str "plot")) ∧
          DefaultOutputType.validate_value (r.get "value") = true)) := by
  constructor
  · intro df_type sv r
    cases sv <;>
      simp [BaseOutputType.validate, StrictVariant.outputType, NumberOutputType,
        StringOutputType, DataFrameOutputType, PlotOutputType, HighChartOutputType,
        baseValidateType, Bool.and_eq_true, pyEqStr_iff]
  · intro r b msgs h
    rw [DefaultOutputType.validate] at h
    cases hf : r.find "type" with
    | none => rw [hf] at h; exact absurd h (by simp)
    | some t =>
        rw [hf] at h
        obtain ⟨hb, -⟩ : DefaultOutputType.default_types.any (fun s => pyEqStr t s) = b
            ∧ ([] : List String) = msgs := by simpa using h
        subst hb
        have hmem : (DefaultOutputType.default_types.any (fun s => pyEqStr t s)) = true ↔
            (t = PyVal.str "string" ∨ t = PyVal.str "number" ∨
             t = PyVal.str "dataframe" ∨ t = PyVal.str "plot") := by
          simp [DefaultOutputType.default_types, pyEqStr_iff]
        rw [hmem]
        constructor
        · intro h1
          exact ⟨⟨t, rfl, h1⟩, rfl⟩
        · rintro ⟨⟨t', ht', h1⟩, -⟩
          rw [Option.some.injEq] at ht'
          subst ht'
          exact h1

/-- C1 witness: the default-variant conjunct applied to the concrete
record `{"type": "plot", "value": "x"}`, whose `validate` is
`Except.ok (true, [])`. -/
theorem C1_validate_boolean_component_witness :
    (true = true ↔
      (∃ t, (recOf (PyVal.str "plot") (PyVal.str "x")).find "type" = some t ∧
        (t = PyVal.str "string" ∨ t = PyVal.str "number" ∨
         t = PyVal.str "dataframe" ∨ t = PyVal.str "plot")) ∧
      DefaultOutputType.validate_value
        ((recOf (PyVal.str "plot") (PyVal.str "x")).get "value") = true) :=
  C1_validate_boolean_component.2 (recOf (PyVal.str "plot") (PyVal.str "x")) true [] rfl

/-- C2: for the default variant, when the `type` key is present,
`validate` returns `(True, ())` if its value is one of `"string"`,
`"number"`, `"dataframe"`, `"plot"` and `(False, ())` otherwise, with no
diagnostics either way; when the `type` key is absent, `validate`
raises a `KeyError` instead of returning an outcome. -/
theorem C2_default_validate_outcomes :
    ∀ r : ResultDict,
      (∀ t, r.find "type" = some t →
        ((t = PyVal.str "string" ∨ t = PyVal.str "number" ∨
          t = PyVal.str "dataframe" ∨ t = PyVal.str "plot") →
            DefaultOutputType.validate r = Except.ok (true, [])) ∧
        (¬(t = PyVal.str "string" ∨ t = PyVal.str "number" ∨
          t = PyVal.str "dataframe" ∨ t = PyVal.str "plot") →
            DefaultOutputType.validate r = Except.ok (false, []))) ∧
      (r.find "type" = Option.none →
        DefaultOutputType.validate r = Except.error "KeyError: type") := by
  intro r
  constructor
  · intro t hf
    have hmem : (DefaultOutputType.default_types.any (fun s => pyEqStr t s)) = true ↔
        (t = PyVal.str "string" ∨ t = PyVal.str "number" ∨
         t = PyVal.str "dataframe" ∨ t = PyVal.str "plot") := by
      simp [DefaultOutputType.default_types, pyEqStr_iff]
    constructor
    · intro hd
      simp only [DefaultOutputType.validate, hf]
      rw [hmem.mpr hd]
    · intro hd
      simp only [DefaultOutputType.validate, hf]
      have hfalse : (DefaultOutputType.default_types.any (fun s => pyEqStr t s)) = false := by
        cases hany : DefaultOutputType.default_types.any (fun s => pyEqStr t s) with
        | true => exact absurd (hmem.mp hany) hd
        | false => rfl
      rw [hfalse]
  · intro hf
    simp only [DefaultOutputType.validate, hf]

/-- C2 witness: the three branches at concrete records. -/
theorem C2_default_validate_outcomes_witness :
    DefaultOutputType.validate (recOf (PyVal.str "number") PyVal.none) = Except.ok (true, [])
    ∧ DefaultOutputType.validate (recOf (PyVal.str "highchart") (PyVal.dict [])) =
        Except.ok (false, [])
    ∧ DefaultOutputType.validate emptyRec = Except.error "KeyError: type" := by
  refine ⟨?_, ?_, ?_⟩
  · exact ((C2_default_validate_outcomes
        (recOf (PyVal.str "number") PyVal.none)).1 (PyVal.str "number") rfl).1
      (Or.inr (Or.inl rfl))
  · refine ((C2_default_validate_outcomes
        (recOf (PyVal.str "highchart") (PyVal.dict []))).1 (PyVal.str "highchart") rfl).2 ?_
    rintro (h | h | h | h) <;> simp at h
  · exact (C2_default_validate_outcomes emptyRec).2 rfl

/-- C3: `MKVDefaultOutputType.validate` is the very function
`DefaultOutputType.validate` (inherited, not overridden), and in
particular it rejects a declared type of `"highchart"` for every value,
returning `(False, ())` despite the hint advertising highchart
payloads. -/
theorem C3_mkv_validate_equals_default :
    MKVDefaultOutputType.validate = DefaultOutputType.validate
    ∧ ∀ v : PyVal,
        MKVDefaultOutputType.validate (recOf (PyVal.str "highchart") v) =
          Except.ok (false, []) := by
  refine ⟨rfl, ?_⟩
  intro v
  rfl

/-- C4: the plot variant's value predicate accepts exactly the strings
matched by `re.match` against the path pattern (anchored at the start
only: `re.match`, not `re.fullmatch`); `"temp_chart.png"` is accepted,
`"a b/c"` is rejected, and a trailing newline after a valid path is
accepted by the `re.match` semantics even though `re.fullmatch` would
reject it. -/
theorem C4_plot_value_predicate :
    (∀ v : PyVal, PlotOutputType.validate_value v = true ↔
        ∃ s, v = PyVal.str s ∧ plotReMatch s = true)
    ∧ plotReMatch "temp_chart.png" = true
    ∧ plotReMatch "a b/c" = false
    ∧ plotReMatch "temp_chart.png\n" = true
    ∧ plotReFullmatch "temp_chart.png\n" = false := by
  refine ⟨?_, by decide, by decide, by decide, by decide⟩
  intro v
  cases v <;> simp [PlotOutputType]

/-- C5: for every strict variant and every result record, the
diagnostics are exactly one message per failed check — type-mismatch
message first, then value-mismatch message — so the list's length is the
number of failed checks and it is empty exactly when the boolean
outcome is true; in particular the value check contributes its message
even when the type check already failed (no short-circuit). -/
theorem C5_messages_per_failed_check :
    ∀ (df_type : PyVal → Option String) (sv : StrictVariant) (r : ResultDict),
      (BaseOutputType.validate (StrictVariant.outputType df_type sv) r).2 =
        (if (StrictVariant.outputType df_type sv).validate_type (r.get "type") then []
         else [typeMismatchMsg (StrictVariant.outputType df_type sv).name (r.get "type")])
        ++ (if (StrictVariant.outputType df_type sv).validate_value (r.get "value") then []
            else [valueMismatchMsg (StrictVariant.outputType df_type sv).name (r.get "value")])
      ∧ (BaseOutputType.validate (StrictVariant.outputType df_type sv) r).2.length =
          (if (StrictVariant.outputType df_type sv).validate_type (r.get "type") then 0 else 1)
          + (if (StrictVariant.outputType df_type sv).validate_value (r.get "value") then 0 else 1)
      ∧ ((BaseOutputType.validate (StrictVariant.outputType df_type sv) r).2 = [] ↔
          (BaseOutputType.validate (StrictVariant.outputType df_type sv) r).1 = true) := by
  intro df_type sv r
  by_cases h1 : (StrictVariant.outputType df_type sv).validate_type (r.get "type") <;>
    by_cases h2 : (StrictVariant.outputType df_type sv).validate_value (r.get "value") <;>
      simp [BaseOutputType.validate, h1, h2]

/-- C6: the number variant's value predicate accepts exactly integers,
booleans (Python `bool` being a subclass of `int` — the documented
quirk), floats and `Decimal`s, and rejects strings, containers and
`None`. -/
theorem C6_number_value_predicate :
    (∀ v : PyVal, NumberOutputType.validate_value v = true ↔
        ((∃ n, v = PyVal.int n) ∨ (∃ b, v = PyVal.bool b) ∨
         (∃ l, v = PyVal.float l) ∨ (∃ l, v = PyVal.decimal l)))
    ∧ NumberOutputType.validate_value (PyVal.bool true) = true
    ∧ NumberOutputType.validate_value (PyVal.int 125) = true
    ∧ NumberOutputType.validate_value (PyVal.str "125") = false
    ∧ NumberOutputType.validate_value (PyVal.list []) = false
    ∧ NumberOutputType.validate_value (PyVal.dict []) = false
    ∧ NumberOutputType.validate_value PyVal.none = false := by
  refine ⟨?_, rfl, rfl, rfl, rfl, rfl, rfl⟩
  intro v
  cases v <;> simp [NumberOutputType]

/-- C7: the highchart variant's value predicate accepts exactly the
dict values, with no inspection of the entries — the empty dict and
dicts without chart or series keys included — and rejects strings,
numbers, `None` and lists. -/
theorem C7_highchart_value_predicate :
    (∀ v : PyVal, HighChartOutputType.validate_value v = true ↔
        ∃ es, v = PyVal.dict es)
    ∧ HighChartOutputType.validate_value (PyVal.dict []) = true
    ∧ (∀ es, HighChartOutputType.validate_value (PyVal.dict es) = true)
    ∧ HighChartOutputType.validate_value (PyVal.str "not-a-dict") = false
    ∧ HighChartOutputType.validate_value (PyVal.int 0) = false
    ∧ HighChartOutputType.validate_value PyVal.none = false
    ∧ HighChartOutputType.validate_value (PyVal.list [PyVal.dict []]) = false := by
  refine ⟨?_, rfl, fun es => rfl, rfl, rfl, rfl, rfl⟩
  intro v
  cases v <;> simp [HighChartOutputType]

/-- C8: the dataframe variant's value predicate holds exactly when the
external classifier `df_type` returns a truthy result (a nonempty
string) for the value, whatever the classifier is — the predicate does
no classification of its own. -/
theorem C8_dataframe_delegates_to_classifier :
    ∀ (df_type : PyVal → Option String) (v : PyVal),
      ((DataFrameOutputType df_type).validate_value v = true ↔
        ∃ s, df_type v = some s ∧ s ≠ "") := by
  intro df_type v
  cases h : df_type v with
  | none => simp [DataFrameOutputType, pyTruthyStrOpt, h]
  | some s => simp [DataFrameOutputType, pyTruthyStrOpt, h]

/-- C9: every strict variant's `validate` is total over any input
mapping: a missing `type` or `value` key is read as `None` (never an
error), and on the empty record the outcome is `(False, [type-mismatch
message, value-mismatch message])` — given that the external classifier
is falsy on `None`, which covers the dataframe variant. -/
theorem C9_strict_validate_total_on_missing_keys :
    ∀ (df_type : PyVal → Option String) (sv : StrictVariant),
      pyTruthyStrOpt (df_type PyVal.none) = false →
        (∀ r : ResultDict, r.find "type" = Option.none → r.get "type" = PyVal.none)
        ∧ (∀ r : ResultDict, r.find "value" = Option.none → r.get "value" = PyVal.none)
        ∧ BaseOutputType.validate (StrictVariant.outputType df_type sv) emptyRec =
            (false,
             [typeMismatchMsg (StrictVariant.outputType df_type sv).name PyVal.none,
              valueMismatchMsg (StrictVariant.outputType df_type sv).name PyVal.none]) := by
  intro df_type sv hdf
  refine ⟨?_, ?_, ?_⟩
  · intro r h; simp [ResultDict.get, h]
  · intro r h; simp [ResultDict.get, h]
  · cases sv <;>
      simp [BaseOutputType.validate, StrictVariant.outputType, NumberOutputType,
        StringOutputType, DataFrameOutputType, PlotOutputType, HighChartOutputType,
        baseValidateType, pyEqStr, emptyRec, ResultDict.get, ResultDict.find, hdf]

/-- C9 witness: the number variant (and the spec-modelled classifier for
the hypothesis) on the empty record. -/
theorem C9_strict_validate_total_on_missing_keys_witness :
    emptyRec.get "type" = PyVal.none
    ∧ BaseOutputType.validate NumberOutputType emptyRec =
        (false,
         [typeMismatchMsg "number" PyVal.none, valueMismatchMsg "number" PyVal.none]) := by
  have h := C9_strict_validate_total_on_missing_keys dfTypeSpec StrictVariant.number rfl
  exact ⟨h.1 emptyRec rfl, h.2.2⟩

/-- C10: the default variant's `validate` never inspects the `value`
entry: two records with the same `type` lookup get identical outcomes,
however their `value` entries differ. -/
theorem C10_default_validate_ignores_value :
    ∀ r₁ r₂ : ResultDict, r₁.find "type" = r₂.find "type" →
      DefaultOutputType.validate r₁ = DefaultOutputType.validate r₂ := by
  intro r₁ r₂ h
  rw [DefaultOutputType.validate, DefaultOutputType.validate, h]

/-- C10 witness: same declared type, wildly different values. -/
theorem C10_default_validate_ignores_value_witness :
    DefaultOutputType.validate (recOf (PyVal.str "string") (PyVal.int 1)) =
      DefaultOutputType.validate
        (recOf (PyVal.str "string") (PyVal.dict [("a", PyVal.list [PyVal.none])])) :=
  C10_default_validate_ignores_value _ _ rfl
